import Mathlib

/-!
Shallow embedding of the MaxSec risk-scoring and policy-enforcement core
(src/analyzer/risk_analyzer.py and src/controller/enforcement.py).

Conventions of the embedding:
* Python floats are modelled as exact rationals (ℚ); every constant in the
  source (weights 0.25/0.20/0.15/0.10, severity increments, thresholds,
  the 1e9 sentinel) is exactly representable, and the claims under study
  concern order comparisons that are robust at these magnitudes.
* Python dictionaries with `.get(key, default)` access are modelled as a
  structure of `Option` fields, with the source's defaults applied at the
  exact places the source applies them.
* Python truthiness is modelled explicitly: a string is truthy iff nonempty,
  a float is truthy iff nonzero, `None` is falsy.
* The capability layer (subprocess calls to taskkill/kill) is modelled by an
  oracle assigning each call an outcome: exit status 0, a non-zero exit
  status, or a raised exception.  Calling one of the `_terminate_process` /
  `_suspend_process` / `_block_network` functions emits an entry in a
  capability-call trace, so "the capability was invoked" is observable.
-/

/-- Python's two-argument `min` (first argument preferred on ties), written
with an explicit comparison so that it evaluates by kernel reduction. -/
def pyMin (a b : ℚ) : ℚ := if a ≤ b then a else b

/-- Python's two-argument `max` (first argument preferred on ties). -/
def pyMax (a b : ℚ) : ℚ := if b ≤ a then a else b

/-- Python string `.lower()` (ASCII case folding, as used by the source on
process names, user contexts and executable paths). -/
def pyLower (s : String) : String :=
  String.mk (s.toList.map Char.toLower)

/-- Does `n` occur at the head of `l`?  Helper for the substring test. -/
def charsLeadMatch : List Char → List Char → Bool
  | [], _ => true
  | _ :: _, [] => false
  | a :: as, b :: bs => a == b && charsLeadMatch as bs

/-- Does `n` occur as a contiguous run anywhere in `l`? -/
def charsOccur (n : List Char) : List Char → Bool
  | [] => charsLeadMatch n []
  | b :: bs => charsLeadMatch n (b :: bs) || charsOccur n bs

/-- Python's `needle in hay` substring operator. -/
def pyIn (needle hay : String) : Bool :=
  charsOccur needle.toList hay.toList

/-- Python's `s.endswith(suffix)` for a single suffix. -/
def pyEndsWith (s suffix : String) : Bool :=
  charsLeadMatch suffix.toList.reverse s.toList.reverse

/-- Python's `s.strip()` (drop leading and trailing whitespace). -/
def pyStrip (s : String) : String :=
  String.mk (((s.toList.dropWhile Char.isWhitespace).reverse.dropWhile
      Char.isWhitespace).reverse)

/-- Python's `s.split(sep)[-1]` for a one-character separator: the suffix of
`s` after its last occurrence of `c` (the whole string when `c` is absent). -/
def lastSegment (c : Char) (s : String) : String :=
  String.mk (s.toList.foldl (fun acc x => if x == c then [] else acc ++ [x]) [])

/-- Python's `s.count(".")`: number of dots in an app name
(`profile.app_name.count(".")` in `_analyze_permission_abuse`). -/
def dotCount (s : String) : ℤ :=
  ((s.toList.filter (fun c => c == '.')).length : ℤ)

/-- The fields of the process-metadata dictionary that the analyzer reads.
`none` models an absent key; the source's `.get` defaults are applied at
each read site exactly as the source does. -/
structure ProcessData where
  name : Option String := none
  command_line : Option String := none
  user_context : Option String := none
  executable : Option String := none
  cpu_percent : Option ℚ := none
  mem_percent : Option ℚ := none
  num_threads : Option ℤ := none
  connections : Option ℤ := none
  open_files : Option ℤ := none
  create_time : Option ℚ := none
  pid : Option ℤ := none

/-- Embedding of `PermissionProfile` from risk_analyzer.py (the analyzer only reads
`app_name`; the declared permissions are carried for fidelity). -/
structure PermissionProfile where
  app_name : String
  declared_permissions : List String := []

/-- Embedding of `BehaviorAnalyzer._analyze_permission_abuse`: severity 0–100.  Without a
profile the body of the `if profile:` guard is skipped and the score stays 0. -/
def analyzePermissionAbuse (pd : ProcessData)
    (profile : Option PermissionProfile) : ℚ :=
  let score : ℚ :=
    match profile with
    | some prof =>
        (if pd.connections.getD 0 > dotCount prof.app_name then (20 : ℚ) else 0)
          + (if pd.open_files.getD 0 > 50 then (15 : ℚ) else 0)
    | none => 0
  pyMin 100 score

/-- Embedding of `BehaviorAnalyzer._analyze_hidden_execution`: typosquat substrings
(+50/+60/+50/+40), empty command line (+25), >100 threads (+20). -/
def analyzeHiddenExecution (pd : ProcessData) : ℚ :=
  let name := pyLower (pd.name.getD "")
  let score : ℚ :=
    (if pyIn "svch0st" name then (50 : ℚ) else 0)
      + (if pyIn "lsasa" name then (60 : ℚ) else 0)
      + (if pyIn "csrsa" name then (50 : ℚ) else 0)
      + (if pyIn "nvcssa" name then (40 : ℚ) else 0)
      + (if pyStrip (pd.command_line.getD "") == "" then (25 : ℚ) else 0)
      + (if pd.num_threads.getD 1 > 100 then (20 : ℚ) else 0)
  pyMin 100 score

/-- Embedding of `BehaviorAnalyzer._analyze_network_anomalies`: tiered connection count,
plus +30 for a system-process name with more than two connections. -/
def analyzeNetworkAnomalies (pd : ProcessData) : ℚ :=
  let connections := pd.connections.getD 0
  let name := pyLower (pd.name.getD "")
  let tier : ℚ :=
    if connections > 50 then 40
    else if connections > 20 then 20
    else if connections > 5 then 10
    else 0
  let sysBump : ℚ :=
    if (pyIn "svchost" name || pyIn "csrss" name || pyIn "services" name)
        && connections > 2 then 30 else 0
  pyMin 100 (tier + sysBump)

/-- Embedding of `BehaviorAnalyzer._analyze_persistence`: +25 for a "system" user context
on a non-system process name; +15 for a truthy creation time below 1e9
(Python's `if create_time and create_time < (1e9)`: `None` and `0` are
falsy, so an absent or zero timestamp takes no penalty). -/
def analyzePersistence (pd : ProcessData) : ℚ :=
  let user_context := pyLower (pd.user_context.getD "")
  let name := pyLower (pd.name.getD "")
  let sysCtx : ℚ :=
    if pyIn "system" user_context
        && !(pyIn "svchost" name || pyIn "services" name || pyIn "lsass" name)
      then 25 else 0
  let oldT : ℚ :=
    match pd.create_time with
    | some t => if t ≠ 0 ∧ t < 1000000000 then 15 else 0
    | none => 0
  pyMin 100 (sysCtx + oldT)

/-- Embedding of `BehaviorAnalyzer._analyze_resource_usage`: tiered cpu% and mem%. -/
def analyzeResourceUsage (pd : ProcessData) : ℚ :=
  let cpu := pd.cpu_percent.getD 0
  let mem := pd.mem_percent.getD 0
  pyMin 100
    ((if cpu > 80 then (30 : ℚ) else if cpu > 50 then 15 else 0)
      + (if mem > 50 then (30 : ℚ) else if mem > 20 then 15 else 0))

/-- Embedding of `BehaviorAnalyzer._analyze_masquerading`: +35 when the executable's base
filename differs from the process name and the name is nowhere in the path
(both strings truthy, i.e. nonempty); +40 for a risky extension. -/
def analyzeMasquerading (pd : ProcessData) : ℚ :=
  let name := pyLower (pd.name.getD "")
  let exe_path := pyLower (pd.executable.getD "")
  let mismatch : ℚ :=
    if exe_path ≠ "" ∧ name ≠ "" then
      (let exe_basename := pyLower (lastSegment '/' (lastSegment '\\' exe_path))
       if exe_basename ≠ name ∧ pyIn name exe_path = false then 35 else 0)
    else 0
  let ext : ℚ :=
    if pyEndsWith name ".scr" || pyEndsWith name ".pif" || pyEndsWith name ".bat"
        || pyEndsWith name ".cmd" || pyEndsWith name ".vbs" || pyEndsWith name ".js"
      then 40 else 0
  pyMin 100 (mismatch + ext)

/-- The six factor severities returned as the breakdown dictionary. -/
structure Factors where
  permission_abuse : ℚ
  hidden_execution : ℚ
  network_anomalies : ℚ
  persistence_behavior : ℚ
  resource_spikes : ℚ
  masquerading_risk : ℚ

/-- The weight table `BehaviorAnalyzer.risk_factors` (source values 0.25,
0.20, 0.20, 0.15, 0.10, 0.10, read as exact rationals). -/
structure RiskWeights where
  permission_abuse : ℚ
  hidden_execution : ℚ
  network_anomalies : ℚ
  persistence_behavior : ℚ
  resource_spikes : ℚ
  masquerading_risk : ℚ

def risk_factors : RiskWeights :=
  { permission_abuse := 0.25
    hidden_execution := 0.20
    network_anomalies := 0.20
    persistence_behavior := 0.15
    resource_spikes := 0.10
    masquerading_risk := 0.10 }

/-- Embedding of `BehaviorAnalyzer.calculate_risk_score`: weighted sum of the six factor
severities, clamped to [0,100] by `min(100.0, max(0.0, total_score))`. -/
def calculate_risk_score (pd : ProcessData)
    (profile : Option PermissionProfile) : ℚ × Factors :=
  let permission_score := analyzePermissionAbuse pd profile
  let hidden_score := analyzeHiddenExecution pd
  let network_score := analyzeNetworkAnomalies pd
  let persistence_score := analyzePersistence pd
  let resource_score := analyzeResourceUsage pd
  let masquerade_score := analyzeMasquerading pd
  let total_score :=
    permission_score * risk_factors.permission_abuse
      + hidden_score * risk_factors.hidden_execution
      + network_score * risk_factors.network_anomalies
      + persistence_score * risk_factors.persistence_behavior
      + resource_score * risk_factors.resource_spikes
      + masquerade_score * risk_factors.masquerading_risk
  let final_score := pyMin 100 (pyMax 0 total_score)
  (final_score,
    { permission_abuse := permission_score
      hidden_execution := hidden_score
      network_anomalies := network_score
      persistence_behavior := persistence_score
      resource_spikes := resource_score
      masquerading_risk := masquerade_score })

/-- The `RiskLevel` enum. -/
inductive RiskLevel where
  | SAFE
  | SUSPICIOUS
  | HIGH_RISK
  | CRITICAL
deriving DecidableEq

/-- The `(min, max)` value attached to each `RiskLevel` member. -/
def levelRange : RiskLevel → ℚ × ℚ
  | .SAFE => (0, 30)
  | .SUSPICIOUS => (31, 60)
  | .HIGH_RISK => (61, 80)
  | .CRITICAL => (81, 100)

/-- Score `s` lies inside the closed range attached to level `l`. -/
def levelMem (s : ℚ) (l : RiskLevel) : Prop :=
  (levelRange l).1 ≤ s ∧ s ≤ (levelRange l).2

instance (s : ℚ) (l : RiskLevel) : Decidable (levelMem s l) := by
  unfold levelMem; infer_instance

/-- Embedding of `BehaviorAnalyzer.get_risk_level`: iterate the enum members in
declaration order, return the first whose closed range contains the score,
and fall back to `CRITICAL` when no range matches. -/
def get_risk_level (risk_score : ℚ) : RiskLevel :=
  if (levelRange .SAFE).1 ≤ risk_score ∧ risk_score ≤ (levelRange .SAFE).2 then
    .SAFE
  else if (levelRange .SUSPICIOUS).1 ≤ risk_score
      ∧ risk_score ≤ (levelRange .SUSPICIOUS).2 then
    .SUSPICIOUS
  else if (levelRange .HIGH_RISK).1 ≤ risk_score
      ∧ risk_score ≤ (levelRange .HIGH_RISK).2 then
    .HIGH_RISK
  else if (levelRange .CRITICAL).1 ≤ risk_score
      ∧ risk_score ≤ (levelRange .CRITICAL).2 then
    .CRITICAL
  else
    .CRITICAL

/-! ## Enforcement controller (src/controller/enforcement.py) -/

/-- The `EnforcementAction` enum. -/
inductive EnforcementAction where
  | TERMINATE
  | SUSPEND
  | BLOCK_NETWORK
  | REVOKE_PERMISSIONS
  | QUARANTINE
  | WHITELIST
deriving DecidableEq

/-- Embedding of `PolicyRule` from enforcement.py. -/
structure PolicyRule where
  name : String
  trigger_risk_score : ℚ
  action : EnforcementAction
  reversible : Bool := true
  requires_approval : Bool := false
  description : String := ""
deriving DecidableEq

/-- The result of `platform.system()` restricted to the two branches the source handles. -/
inductive SystemOS where
  | Windows
  | Linux
deriving DecidableEq

/-- Outcome the platform assigns to one capability call: the spawned command
exits 0, exits non-zero, or the call raises an exception with a message. -/
inductive CapResult where
  | exit0
  | exitNonzero
  | raised (msg : String)
deriving DecidableEq

/-- Which platform primitive a capability call asked for. -/
inductive CapPrim where
  | terminate
  | suspend
  | block_network
deriving DecidableEq

/-- One capability invocation: the primitive and the target pid. -/
structure CapCall where
  prim : CapPrim
  pid : ℤ
deriving DecidableEq

/-- One entry of `self.execution_log` as written by `_log_action`. -/
structure LogEntry where
  action : String
  process_id : ℤ
  reason : String
  success : Bool
  error : Option String
deriving DecidableEq

/-- Result of one controller method: the returned boolean, the capability
calls it made and the log entries it appended, in order. -/
structure ActionResult where
  returned : Bool
  calls : List CapCall
  log : List LogEntry
deriving DecidableEq

/-- Embedding of `EnforcementController._terminate_process`: runs taskkill (Windows) or
`kill -9` (Linux); logs success only inside `if success:` and logs failure
only from the `except` branch, so a non-zero exit status produces no entry. -/
def terminateProcess (_sys : SystemOS) (r : CapResult) (process_id : ℤ)
    (reason : String) : ActionResult :=
  match r with
  | .exit0 =>
      { returned := true
        calls := [⟨.terminate, process_id⟩]
        log := [⟨"terminate", process_id, reason, true, none⟩] }
  | .exitNonzero =>
      { returned := false, calls := [⟨.terminate, process_id⟩], log := [] }
  | .raised e =>
      { returned := false
        calls := [⟨.terminate, process_id⟩]
        log := [⟨"terminate", process_id, reason, false, some e⟩] }

/-- Embedding of `EnforcementController._suspend_process`: on Windows the body is a
placeholder that always sets `success = True` without consulting the
platform; on Linux it runs `kill -STOP` and succeeds iff the exit status
is 0, logging only on success or on a raised exception. -/
def suspendProcess (sys : SystemOS) (r : CapResult) (process_id : ℤ)
    (reason : String) : ActionResult :=
  match sys with
  | .Windows =>
      { returned := true
        calls := [⟨.suspend, process_id⟩]
        log := [⟨"suspend", process_id, reason, true, none⟩] }
  | .Linux =>
      match r with
      | .exit0 =>
          { returned := true
            calls := [⟨.suspend, process_id⟩]
            log := [⟨"suspend", process_id, reason, true, none⟩] }
      | .exitNonzero =>
          { returned := false, calls := [⟨.suspend, process_id⟩], log := [] }
      | .raised e =>
          { returned := false
            calls := [⟨.suspend, process_id⟩]
            log := [⟨"suspend", process_id, reason, false, some e⟩] }

/-- Embedding of `EnforcementController._block_network`: on both platforms the body is a
placeholder that sets `success = True` and logs the action; no fallible
platform call is made, so the outcome does not depend on the oracle. -/
def blockNetwork (_sys : SystemOS) (_r : CapResult) (process_id : ℤ)
    (reason : String) : ActionResult :=
  { returned := true
    calls := [⟨.block_network, process_id⟩]
    log := [⟨"block_network", process_id, reason, true, none⟩] }

/-- Embedding of `EnforcementController._quarantine_process`: call `_suspend_process` then
`_block_network` (both return values are discarded), then log a
`"quarantine"` entry with `success=True` and return `True`.  The sub-calls
catch their own exceptions, so the `except` branch here is unreachable. -/
def quarantineProcess (sys : SystemOS) (r1 r2 : CapResult) (process_id : ℤ)
    (reason : String) : ActionResult :=
  let s := suspendProcess sys r1 process_id ("Quarantine: " ++ reason)
  let b := blockNetwork sys r2 process_id ("Quarantine: " ++ reason)
  { returned := true
    calls := s.calls ++ b.calls
    log := s.log ++ b.log ++ [⟨"quarantine", process_id, reason, true, none⟩] }

/-- The controller state the claims depend on: the mode string given at
construction, the detected platform, and the policy table. -/
structure EnforcementController where
  mode : String
  system : SystemOS
  policies : List PolicyRule

/-- Embedding of `EnforcementController._init_default_policies`. -/
def init_default_policies : List PolicyRule :=
  [ { name := "Critical Threat Auto-Terminate"
      trigger_risk_score := 85
      action := .TERMINATE
      reversible := false
      requires_approval := true
      description := "Automatically terminate processes flagged as critical threats" }
  , { name := "High Risk Quarantine"
      trigger_risk_score := 70
      action := .QUARANTINE
      reversible := true
      requires_approval := false
      description := "Suspend and block network for high-risk processes" }
  , { name := "Suspicious Alert"
      trigger_risk_score := 50
      action := .SUSPEND
      reversible := true
      requires_approval := false
      description := "Suspend suspicious processes pending review" } ]

/-- Embedding of `EnforcementController.execute_action`: in monitor mode return `False`
without touching the capability layer; otherwise dispatch on the action
(the oracle supplies the platform outcome of each capability call, index 0
for the first call and 1 for quarantine's second call); unsupported actions
return `False`. -/
def execute_action (c : EnforcementController) (oracle : ℕ → CapResult)
    (process_id : ℤ) (action : EnforcementAction) (reason : String) :
    ActionResult :=
  if c.mode = "monitor" then
    { returned := false, calls := [], log := [] }
  else
    match action with
    | .TERMINATE => terminateProcess c.system (oracle 0) process_id reason
    | .SUSPEND => suspendProcess c.system (oracle 0) process_id reason
    | .BLOCK_NETWORK => blockNetwork c.system (oracle 0) process_id reason
    | .QUARANTINE =>
        quarantineProcess c.system (oracle 0) (oracle 1) process_id reason
    | _ => { returned := false, calls := [], log := [] }

/-- The descending order used by `sorted(self.policies, key=..., reverse=True)`:
`a` precedes `b` when `a`'s trigger threshold is at least `b`'s.  Python's
sort is stable, as is `List.insertionSort` with this relation. -/
def policyGE (a b : PolicyRule) : Prop :=
  b.trigger_risk_score ≤ a.trigger_risk_score

instance : DecidableRel policyGE := by
  unfold policyGE; infer_instance

instance : IsTotal PolicyRule policyGE :=
  ⟨fun a b => le_total b.trigger_risk_score a.trigger_risk_score⟩

instance : IsTrans PolicyRule policyGE :=
  ⟨fun _ _ _ h1 h2 => le_trans h2 h1⟩

/-- The policy-selection loop of `evaluate_and_enforce`: sort the table by
trigger threshold descending (stably) and take the first rule whose
threshold is ≤ the score. -/
def selectPolicy (policies : List PolicyRule) (risk_score : ℚ) :
    Option PolicyRule :=
  (policies.insertionSort policyGE).find?
    (fun p => decide (p.trigger_risk_score ≤ risk_score))

/-- Result of `evaluate_and_enforce`: the returned `Optional[EnforcementAction]`
plus the capability calls and log entries produced. -/
structure EnforceResult where
  returned : Option EnforcementAction
  calls : List CapCall
  log : List LogEntry
deriving DecidableEq

/-- Embedding of `EnforcementController.evaluate_and_enforce`: select the matching policy;
none → return `None`; monitor mode → return `None` without executing;
otherwise run `execute_action` and return the action iff it succeeded. -/
def evaluate_and_enforce (c : EnforcementController) (oracle : ℕ → CapResult)
    (pid : ℤ) (risk_score : ℚ) : EnforceResult :=
  match selectPolicy c.policies risk_score with
  | none => { returned := none, calls := [], log := [] }
  | some applied_policy =>
      if c.mode = "monitor" then
        { returned := none, calls := [], log := [] }
      else
        let reason := applied_policy.name ++ ": " ++ applied_policy.description
        let res := execute_action c oracle pid applied_policy.action reason
        { returned := if res.returned then some applied_policy.action else none
          calls := res.calls
          log := res.log }

/-! ## Theorems -/

/-- C10 (confirmed): when no permission profile is supplied, the
permission-abuse factor severity is 0 for every snapshot, regardless of
connection count or open-file count, and the breakdown reports 0 for it. -/
theorem no_profile_permission_abuse_zero (pd : ProcessData) :
    analyzePermissionAbuse pd none = 0
      ∧ (calculate_risk_score pd none).2.permission_abuse = 0 := by
  constructor
  · norm_num [analyzePermissionAbuse, pyMin]
  · norm_num [calculate_risk_score, analyzePermissionAbuse, pyMin]

/-- C5 (confirmed): for every snapshot (any combination of missing fields)
and any optional profile, the risk score equals the weighted sum of the six
factor severities — weights 0.25, 0.20, 0.20, 0.15, 0.10, 0.10 summing to
1 — clamped to [0,100], so 0 ≤ score ≤ 100 always holds. -/
theorem risk_score_weighted_clamped (pd : ProcessData)
    (profile : Option PermissionProfile) :
    (calculate_risk_score pd profile).1
        = pyMin 100 (pyMax 0
            ((calculate_risk_score pd profile).2.permission_abuse
                * risk_factors.permission_abuse
              + (calculate_risk_score pd profile).2.hidden_execution
                * risk_factors.hidden_execution
              + (calculate_risk_score pd profile).2.network_anomalies
                * risk_factors.network_anomalies
              + (calculate_risk_score pd profile).2.persistence_behavior
                * risk_factors.persistence_behavior
              + (calculate_risk_score pd profile).2.resource_spikes
                * risk_factors.resource_spikes
              + (calculate_risk_score pd profile).2.masquerading_risk
                * risk_factors.masquerading_risk))
      ∧ risk_factors.permission_abuse = 0.25
      ∧ risk_factors.hidden_execution = 0.20
      ∧ risk_factors.network_anomalies = 0.20
      ∧ risk_factors.persistence_behavior = 0.15
      ∧ risk_factors.resource_spikes = 0.10
      ∧ risk_factors.masquerading_risk = 0.10
      ∧ risk_factors.permission_abuse + risk_factors.hidden_execution
          + risk_factors.network_anomalies + risk_factors.persistence_behavior
          + risk_factors.resource_spikes + risk_factors.masquerading_risk = 1
      ∧ 0 ≤ (calculate_risk_score pd profile).1
      ∧ (calculate_risk_score pd profile).1 ≤ 100 := by
  refine ⟨rfl, rfl, rfl, rfl, rfl, rfl, rfl, by norm_num [risk_factors], ?_, ?_⟩ <;>
    · unfold calculate_risk_score pyMin pyMax
      dsimp only
      split_ifs <;> linarith

/-- C2 (confirmed): in Monitor mode, `evaluate_and_enforce` returns `None`
and makes no capability invocation (and appends no log entry), for every
policy table, platform, capability oracle, pid and risk score. -/
theorem monitor_mode_never_invokes (c : EnforcementController)
    (oracle : ℕ → CapResult) (pid : ℤ) (s : ℚ) (h : c.mode = "monitor") :
    evaluate_and_enforce c oracle pid s
      = { returned := none, calls := [], log := [] } := by
  unfold evaluate_and_enforce
  rcases hsel : selectPolicy c.policies s with _ | p
  · rfl
  · simp [h]

/-- Witness for C2: a monitor-mode controller with the default table at
score 90 (which matches a policy) returns `None` with no capability calls. -/
theorem monitor_mode_never_invokes_witness :
    evaluate_and_enforce
        { mode := "monitor", system := .Linux, policies := init_default_policies }
        (fun _ => .exit0) 1234 90
      = { returned := none, calls := [], log := [] } :=
  monitor_mode_never_invokes _ _ _ _ rfl

/-- C7 (confirmed): when a Quarantine action is executed in a non-Monitor
mode, both sub-actions are attempted: the BlockNetwork capability is invoked
even when the preceding Suspend capability call fails. -/
theorem quarantine_attempts_both (c : EnforcementController)
    (oracle : ℕ → CapResult) (pid : ℤ) (reason : String)
    (hmode : c.mode ≠ "monitor")
    (_hfail : (suspendProcess c.system (oracle 0) pid
        ("Quarantine: " ++ reason)).returned = false) :
    (⟨.suspend, pid⟩ : CapCall)
        ∈ (execute_action c oracle pid .QUARANTINE reason).calls
      ∧ (⟨.block_network, pid⟩ : CapCall)
        ∈ (execute_action c oracle pid .QUARANTINE reason).calls := by
  unfold execute_action
  rw [if_neg hmode]
  unfold quarantineProcess blockNetwork
  rcases c.system with _ | _ <;> rcases oracle 0 with _ | _ | m <;>
    simp [suspendProcess]

/-- Witness for C7: on Linux with a non-zero exit status for `kill -STOP`,
the Suspend sub-action fails yet BlockNetwork is still invoked. -/
theorem quarantine_attempts_both_witness :
    (⟨.suspend, 42⟩ : CapCall)
        ∈ (execute_action
            { mode := "enforce", system := .Linux, policies := init_default_policies }
            (fun n => if n = 0 then .exitNonzero else .exit0)
            42 .QUARANTINE "high risk").calls
      ∧ (⟨.block_network, 42⟩ : CapCall)
        ∈ (execute_action
            { mode := "enforce", system := .Linux, policies := init_default_policies }
            (fun n => if n = 0 then .exitNonzero else .exit0)
            42 .QUARANTINE "high risk").calls :=
  quarantine_attempts_both _ _ _ _ (by decide) (by decide)

/-- C6 counterexample: on Linux in enforce mode, with `kill -STOP` failing
via a non-zero exit status (Suspend outcome `false`) and BlockNetwork
succeeding (`true`), the quarantine audit record still carries
`success = true`, which differs from the logical AND (`false`) of the two
sub-action outcomes — so the claim is false at this input. -/
theorem quarantine_success_flag_counterexample :
    ((execute_action
          { mode := "enforce", system := .Linux, policies := init_default_policies }
          (fun n => if n = 0 then .exitNonzero else .exit0)
          42 .QUARANTINE "why").log.getLast?.map LogEntry.success) = some true
      ∧ (suspendProcess .Linux .exitNonzero 42 "Quarantine: why").returned = false
      ∧ (blockNetwork .Linux .exit0 42 "Quarantine: why").returned = true
      ∧ ((suspendProcess .Linux .exitNonzero 42 "Quarantine: why").returned
          && (blockNetwork .Linux .exit0 42 "Quarantine: why").returned)
        ≠ true := by
  decide

/-- C6 (corrected, amended): when a Quarantine action is executed in a
non-Monitor mode, the quarantine audit record is always appended with
`success = true` and the method returns `True`, regardless of the outcomes
of the Suspend and BlockNetwork sub-actions: sub-action failures are never
propagated into the composite record. -/
theorem quarantine_record_always_success (c : EnforcementController)
    (oracle : ℕ → CapResult) (pid : ℤ) (reason : String)
    (hmode : c.mode ≠ "monitor") :
    (execute_action c oracle pid .QUARANTINE reason).log.getLast?
        = some ⟨"quarantine", pid, reason, true, none⟩
      ∧ (execute_action c oracle pid .QUARANTINE reason).returned = true := by
  unfold execute_action
  rw [if_neg hmode]
  unfold quarantineProcess blockNetwork
  rcases c.system with _ | _ <;> rcases oracle 0 with _ | _ | m <;>
    simp [suspendProcess]

/-- Witness for the amended C6: concrete enforce-mode Linux quarantine with a
failing Suspend sub-action still records `success = true` and returns `True`. -/
theorem quarantine_record_always_success_witness :
    (execute_action
          { mode := "enforce", system := .Linux, policies := init_default_policies }
          (fun n => if n = 0 then .exitNonzero else .exit0)
          7 .QUARANTINE "test").log.getLast?
        = some ⟨"quarantine", 7, "test", true, none⟩
      ∧ (execute_action
          { mode := "enforce", system := .Linux, policies := init_default_policies }
          (fun n => if n = 0 then .exitNonzero else .exit0)
          7 .QUARANTINE "test").returned = true :=
  quarantine_record_always_success _ _ _ _ (by decide)

/-- C9 counterexample: a snapshot whose creation timestamp is exactly 0
(earlier than epoch+1e9) receives persistence severity 0 — the +15 penalty
is not applied, because Python's `if create_time and ...` treats the float
0.0 as falsy. -/
theorem persistence_epoch_zero_counterexample :
    (0 : ℚ) < 1000000000
      ∧ analyzePersistence { create_time := some 0 } = 0
      ∧ ¬ (15 ≤ analyzePersistence { create_time := some 0 }) := by
  have h : analyzePersistence { create_time := some 0 } = 0 := by
    simp +decide only [analyzePersistence]
    all_goals norm_num [pyMin]
  exact ⟨by norm_num, h, by rw [h]; norm_num⟩

/-- C9 (corrected, amended): for every snapshot whose creation timestamp is
present, nonzero and earlier than epoch+1e9, the persistence severity
includes the +15 penalty (it exceeds the same snapshot's severity without a
timestamp by exactly 15); a timestamp of 0 is excluded by truthiness. -/
theorem persistence_old_timestamp_penalty (pd : ProcessData) (t : ℚ)
    (ht : pd.create_time = some t) (h0 : t ≠ 0) (hlt : t < 1000000000) :
    analyzePersistence pd
      = analyzePersistence { pd with create_time := none } + 15 := by
  simp only [analyzePersistence, ht]
  have h15 : (if t ≠ 0 ∧ t < 1000000000 then (15 : ℚ) else 0) = 15 := by
    rw [if_pos]
    exact ⟨h0, hlt⟩
  rw [h15]
  split_ifs <;> norm_num [pyMin]

/-- Witness for the amended C9: timestamp 1 (nonzero, below 1e9) yields
persistence severity 15 = 0 + 15. -/
theorem persistence_old_timestamp_penalty_witness :
    analyzePersistence { create_time := some 1 }
      = analyzePersistence
          { ({ create_time := some 1 } : ProcessData) with create_time := none }
        + 15 :=
  persistence_old_timestamp_penalty _ 1 rfl (by norm_num) (by norm_num)

/-- The Scenario B snapshot from §8 of the spec and from
`test_calculate_risk_suspicious_app` in src/tests/test_core.py. -/
def scenarioB : ProcessData :=
  { name := some "svch0st.exe"
    command_line := some ""
    user_context := some "System"
    cpu_percent := some 85
    mem_percent := some 55
    connections := some 75
    open_files := some 100
    num_threads := some 150
    pid := some 5678 }

/-- C8 (code_bug): evaluating the code on the Scenario B snapshot (no
permission profile) yields risk score 36.75 — permission abuse contributes 0
without a profile and masquerading contributes 0 — which is not greater than
60 and classifies as SUSPICIOUS, contradicting the repository's own test
`test_calculate_risk_suspicious_app` (`assert risk_score > 60`) and the
claim's HIGH_RISK-or-CRITICAL requirement. -/
theorem scenarioB_score_eval :
    (calculate_risk_score scenarioB none).1 = 147 / 4
      ∧ ¬ ((calculate_risk_score scenarioB none).1 > 60)
      ∧ get_risk_level (calculate_risk_score scenarioB none).1 = .SUSPICIOUS := by
  have hperm : analyzePermissionAbuse scenarioB none = 0 := by
    simp +decide only [analyzePermissionAbuse]
  have hhid : analyzeHiddenExecution scenarioB = 95 := by
    simp +decide only [analyzeHiddenExecution, scenarioB]
    all_goals norm_num [pyMin]
  have hnet : analyzeNetworkAnomalies scenarioB = 40 := by
    simp +decide only [analyzeNetworkAnomalies, scenarioB]
    all_goals norm_num [pyMin]
  have hpers : analyzePersistence scenarioB = 25 := by
    simp +decide only [analyzePersistence, scenarioB]
    all_goals norm_num [pyMin]
  have hres : analyzeResourceUsage scenarioB = 60 := by
    simp +decide only [analyzeResourceUsage, scenarioB]
    all_goals norm_num [pyMin]
  have hmas : analyzeMasquerading scenarioB = 0 := by
    simp +decide only [analyzeMasquerading, scenarioB]
    all_goals norm_num [pyMin]
  have hscore : (calculate_risk_score scenarioB none).1 = 147 / 4 := by
    simp only [calculate_risk_score, hperm, hhid, hnet, hpers, hres, hmas,
      risk_factors]
    norm_num [pyMin, pyMax]
  refine ⟨hscore, by rw [hscore]; norm_num, ?_⟩
  rw [hscore]
  simp only [get_risk_level, levelRange]
  norm_num

/-- C3 counterexample: at score 90 against the default table a policy rule
matches ("Critical Threat Auto-Terminate"), yet a Monitor-mode call of
`evaluate_and_enforce` appends no EnforcementRecord at all — the simulated
action is only logged as text, so "exactly once ... merely simulated in
Monitor mode" is false at this input. -/
theorem monitor_match_appends_no_record :
    (selectPolicy init_default_policies 90).map PolicyRule.name
        = some "Critical Threat Auto-Terminate"
      ∧ (evaluate_and_enforce
          { mode := "monitor", system := .Linux, policies := init_default_policies }
          (fun _ => .exit0) 7 90).log = [] := by
  constructor
  · decide
  · decide

/-- Number of audit-log entries one `evaluate_and_enforce` call appends in a
non-Monitor mode once a rule with the given action has matched, as a
function of the platform and the capability outcomes: Terminate and Linux
Suspend log nothing when the capability exits non-zero; Windows Suspend and
BlockNetwork always log once; Quarantine adds the BlockNetwork sub-record
and its own composite record on top of the Suspend sub-record;
unsupported actions log nothing. -/
def expectedRecords (sys : SystemOS) (oracle : ℕ → CapResult) :
    EnforcementAction → ℕ
  | .TERMINATE =>
      match oracle 0 with
      | .exitNonzero => 0
      | _ => 1
  | .SUSPEND =>
      match sys, oracle 0 with
      | .Windows, _ => 1
      | .Linux, .exitNonzero => 0
      | .Linux, _ => 1
  | .BLOCK_NETWORK => 1
  | .QUARANTINE =>
      (match sys, oracle 0 with
        | .Windows, _ => 1
        | .Linux, .exitNonzero => 0
        | .Linux, _ => 1) + 2
  | _ => 0

/-- C3 (corrected, amended): when a policy rule matches the score, records
are appended only in non-Monitor modes, and then their number is exactly
`expectedRecords`: one per capability call that exits 0 or raises, none for
a call failing via a non-zero exit status, plus Quarantine's unconditional
composite record; in Monitor mode (and for unsupported actions) nothing is
appended, so the claimed "exactly once, unconditionally" does not hold. -/
theorem records_appended_characterization (c : EnforcementController)
    (oracle : ℕ → CapResult) (pid : ℤ) (s : ℚ) (p : PolicyRule)
    (hsel : selectPolicy c.policies s = some p) :
    (c.mode = "monitor" → (evaluate_and_enforce c oracle pid s).log = [])
      ∧ (c.mode ≠ "monitor" →
          (evaluate_and_enforce c oracle pid s).log.length
            = expectedRecords c.system oracle p.action) := by
  constructor
  · intro h
    unfold evaluate_and_enforce
    rw [hsel]
    simp [h]
  · intro h
    unfold evaluate_and_enforce
    rw [hsel]
    dsimp only
    rw [if_neg h]
    unfold execute_action
    rw [if_neg h]
    rcases p.action with _ | _ | _ | _ | _ | _ <;>
      rcases c.system with _ | _ <;>
        rcases h0 : oracle 0 with _ | _ | m <;>
          simp [terminateProcess, suspendProcess, blockNetwork,
            quarantineProcess, expectedRecords, h0]

/-- Witness for the amended C3: enforce mode on Linux at score 90 (Terminate
rule matches) with a clean capability exit appends exactly one record. -/
theorem records_appended_characterization_witness :
    (("enforce" : String) = "monitor" →
        (evaluate_and_enforce
          { mode := "enforce", system := .Linux, policies := init_default_policies }
          (fun _ => .exit0) 9 90).log = [])
      ∧ (("enforce" : String) ≠ "monitor" →
          (evaluate_and_enforce
            { mode := "enforce", system := .Linux, policies := init_default_policies }
            (fun _ => .exit0) 9 90).log.length
            = expectedRecords .Linux (fun _ => .exit0)
                (PolicyRule.action
                  { name := "Critical Threat Auto-Terminate"
                    trigger_risk_score := 85
                    action := .TERMINATE
                    reversible := false
                    requires_approval := true
                    description := "Automatically terminate processes flagged as critical threats" })) :=
  records_appended_characterization
    { mode := "enforce", system := .Linux, policies := init_default_policies }
    (fun _ => .exit0) 9 90 _ (by decide)

/-- In a list sorted by descending trigger threshold, the first rule whose
threshold is ≤ the score has the greatest threshold among all matching
rules of the list. -/
theorem find_desc_max (s : ℚ) :
    ∀ l : List PolicyRule, l.Sorted policyGE →
      ∀ p, l.find? (fun x => decide (x.trigger_risk_score ≤ s)) = some p →
        ∀ r ∈ l, r.trigger_risk_score ≤ s →
          r.trigger_risk_score ≤ p.trigger_risk_score := by
  intro l
  induction l with
  | nil => intro _ p hp; simp at hp
  | cons a t ih =>
    intro hs p hp r hr hrs
    by_cases ha : a.trigger_risk_score ≤ s
    · rw [List.find?_cons_of_pos _ (by simpa using ha)] at hp
      obtain rfl : a = p := by simpa using hp
      rcases List.mem_cons.mp hr with rfl | hmem
      · exact le_refl _
      · exact List.rel_of_sorted_cons hs r hmem
    · rw [List.find?_cons_of_neg _ (by simpa using ha)] at hp
      rcases List.mem_cons.mp hr with rfl | hmem
      · exact absurd hrs ha
      · exact ih hs.of_cons p hp r hmem hrs

/-- C4 (confirmed): for every rule table and score, `evaluate_and_enforce`'s
selection step picks a rule with the highest trigger threshold ≤ the score
(a matching rule of the table whose threshold dominates every matching
rule's), and picks none when the score is below every threshold; against
the default table, 90 matches "Critical Threat Auto-Terminate" (Terminate),
55 matches "Suspicious Alert" (Suspend), and 40 matches no rule. -/
theorem policy_selection_highest_threshold (rules : List PolicyRule) (s : ℚ) :
    (selectPolicy rules s = none → ∀ r ∈ rules, ¬ (r.trigger_risk_score ≤ s))
      ∧ (∀ p, selectPolicy rules s = some p →
          p ∈ rules ∧ p.trigger_risk_score ≤ s
            ∧ ∀ r ∈ rules, r.trigger_risk_score ≤ s →
                r.trigger_risk_score ≤ p.trigger_risk_score)
      ∧ (selectPolicy init_default_policies 90).map PolicyRule.name
          = some "Critical Threat Auto-Terminate"
      ∧ (selectPolicy init_default_policies 90).map PolicyRule.action
          = some .TERMINATE
      ∧ (selectPolicy init_default_policies 55).map PolicyRule.name
          = some "Suspicious Alert"
      ∧ (selectPolicy init_default_policies 55).map PolicyRule.action
          = some .SUSPEND
      ∧ selectPolicy init_default_policies 40 = none := by
  refine ⟨?_, ?_, by decide, by decide, by decide, by decide, by decide⟩
  · intro hnone r hr hrs
    unfold selectPolicy at hnone
    rw [List.find?_eq_none] at hnone
    have hmem : r ∈ rules.insertionSort policyGE :=
      (List.perm_insertionSort policyGE rules).mem_iff.mpr hr
    have := hnone r hmem
    simp at this
    linarith
  · intro p hp
    unfold selectPolicy at hp
    have hmem : p ∈ rules :=
      (List.perm_insertionSort policyGE rules).mem_iff.mp
        (List.mem_of_find?_eq_some hp)
    have hps : p.trigger_risk_score ≤ s := by
      have := List.find?_some hp
      simpa using this
    refine ⟨hmem, hps, ?_⟩
    intro r hr hrs
    exact find_desc_max s _ (List.sorted_insertionSort policyGE rules) p hp r
      ((List.perm_insertionSort policyGE rules).mem_iff.mpr hr) hrs

/-- Witness for C4: at score 90 the selected default rule is the 85-threshold
Terminate rule; it belongs to the table, matches, and dominates every
matching rule's threshold. -/
theorem policy_selection_highest_threshold_witness :
    (⟨"Critical Threat Auto-Terminate", 85, .TERMINATE, false, true,
        "Automatically terminate processes flagged as critical threats"⟩
        : PolicyRule) ∈ init_default_policies
      ∧ (85 : ℚ) ≤ 90
      ∧ ∀ r ∈ init_default_policies, r.trigger_risk_score ≤ 90 →
          r.trigger_risk_score ≤ (85 : ℚ) :=
  (policy_selection_highest_threshold init_default_policies 90).2.1
    ⟨"Critical Threat Auto-Terminate", 85, .TERMINATE, false, true,
      "Automatically terminate processes flagged as critical threats"⟩
    (by decide)

/-- The three open intervals of [0,100] covered by none of the four
`RiskLevel` ranges. -/
def inGap (q : ℚ) : Prop :=
  (30 < q ∧ q < 31) ∨ (60 < q ∧ q < 61) ∨ (80 < q ∧ q < 81)

/-- C1 counterexample: the non-integer score 30.5 lies in [0,100] but in
none of the four level ranges — SAFE ends at 30 and SUSPICIOUS starts at
31 — so the ranges do not partition [0,100] over non-integer scores; the
classifier's fallback sends 30.5 to CRITICAL. -/
theorem classification_gap_counterexample :
    (0 : ℚ) ≤ 61 / 2 ∧ (61 / 2 : ℚ) ≤ 100
      ∧ (∀ l : RiskLevel, ¬ levelMem (61 / 2) l)
      ∧ get_risk_level (61 / 2) = .CRITICAL := by
  refine ⟨by norm_num, by norm_num, ?_, ?_⟩
  · intro l
    cases l <;> · rintro ⟨h1, h2⟩; norm_num [levelRange] at h1 h2
  · simp only [get_risk_level, levelRange]
    norm_num

/-- C1 (corrected, amended): every score in [0,100] is classified to exactly
one RiskLevel by `get_risk_level`; outside the gaps (30,31), (60,61) and
(80,81) the four ranges contain the score uniquely and the classifier
returns that unique level (so the ranges partition the integers of
[0,100]), while scores inside a gap belong to no range and fall back to
CRITICAL. -/
theorem classification_partition (q : ℚ) (h0 : 0 ≤ q) (h100 : q ≤ 100) :
    (inGap q → (∀ l, ¬ levelMem q l) ∧ get_risk_level q = .CRITICAL)
      ∧ (¬ inGap q → levelMem q (get_risk_level q)
          ∧ ∀ l, levelMem q l → l = get_risk_level q) := by
  constructor
  · intro hg
    have hnone : ∀ l, ¬ levelMem q l := by
      intro l hl
      rcases hl with ⟨h1, h2⟩
      rcases hg with ⟨g1, g2⟩ | ⟨g1, g2⟩ | ⟨g1, g2⟩ <;>
        cases l <;> norm_num [levelRange] at h1 h2 <;> linarith
    refine ⟨hnone, ?_⟩
    unfold get_risk_level
    split_ifs with hA hB hC hD
    · exact absurd hA (hnone .SAFE)
    · exact absurd hB (hnone .SUSPICIOUS)
    · exact absurd hC (hnone .HIGH_RISK)
    · exact absurd hD (hnone .CRITICAL)
    · rfl
  · intro hng
    unfold inGap at hng
    push_neg at hng
    obtain ⟨g1, g2, g3⟩ := hng
    rcases le_or_lt q 30 with h30 | h30
    · have hl : get_risk_level q = .SAFE := by
        simp only [get_risk_level, levelRange]
        rw [if_pos ⟨h0, h30⟩]
      rw [hl]
      refine ⟨⟨h0, h30⟩, ?_⟩
      intro l hl2
      cases l <;> rcases hl2 with ⟨h1, h2⟩ <;> norm_num [levelRange] at h1 h2 <;>
        first | rfl | linarith
    · have h31 : 31 ≤ q := g1 h30
      rcases le_or_lt q 60 with h60 | h60
      · have hl : get_risk_level q = .SUSPICIOUS := by
          simp only [get_risk_level, levelRange]
          rw [if_neg (by rintro ⟨u, v⟩; linarith), if_pos ⟨h31, h60⟩]
        rw [hl]
        refine ⟨⟨h31, h60⟩, ?_⟩
        intro l hl2
        cases l <;> rcases hl2 with ⟨h1, h2⟩ <;>
          norm_num [levelRange] at h1 h2 <;> first | rfl | linarith
      · have h61 : 61 ≤ q := g2 h60
        rcases le_or_lt q 80 with h80 | h80
        · have hl : get_risk_level q = .HIGH_RISK := by
            simp only [get_risk_level, levelRange]
            rw [if_neg (by rintro ⟨u, v⟩; linarith),
              if_neg (by rintro ⟨u, v⟩; linarith), if_pos ⟨h61, h80⟩]
          rw [hl]
          refine ⟨⟨h61, h80⟩, ?_⟩
          intro l hl2
          cases l <;> rcases hl2 with ⟨h1, h2⟩ <;>
            norm_num [levelRange] at h1 h2 <;> first | rfl | linarith
        · have h81 : 81 ≤ q := g3 h80
          have hl : get_risk_level q = .CRITICAL := by
            simp only [get_risk_level, levelRange]
            rw [if_neg (by rintro ⟨u, v⟩; linarith),
              if_neg (by rintro ⟨u, v⟩; linarith),
              if_neg (by rintro ⟨u, v⟩; linarith), if_pos ⟨h81, h100⟩]
          rw [hl]
          refine ⟨⟨h81, h100⟩, ?_⟩
          intro l hl2
          cases l <;> rcases hl2 with ⟨h1, h2⟩ <;>
            norm_num [levelRange] at h1 h2 <;> first | rfl | linarith

/-- Witness for the amended C1: at the in-range score 45 the classifier
returns the unique containing level (SUSPICIOUS). -/
theorem classification_partition_witness :
    (inGap (45 : ℚ) → (∀ l, ¬ levelMem (45 : ℚ) l)
        ∧ get_risk_level 45 = .CRITICAL)
      ∧ (¬ inGap (45 : ℚ) → levelMem (45 : ℚ) (get_risk_level 45)
          ∧ ∀ l, levelMem (45 : ℚ) l → l = get_risk_level 45) :=
  classification_partition 45 (by norm_num) (by norm_num)
